import Mathlib

/-
Verification development for the Legal-Lens backend (src/main.py and
src/agents.py).

The Python code is shallowly embedded as follows.
  - The external generative-text service (Gemini) is modelled as an
    oracle: each call is an `Except Unit String` value, `Except.ok t`
    meaning the call returned text `t` and `Except.error ()` meaning the
    call raised an exception.
  - The PDF library (fitz) is modelled by `PdfLib`: opening the document
    may fail, and each page's get_text call may fail.
  - Python strings are Lean `String`s; the cleaning pipeline of
    main.py's extract_clauses (strip, then removal of every occurrence
    of three-backticks-followed-by-json, then removal of every
    occurrence of three backticks) is implemented character-exactly on
    `List Char`, with Python's left-to-right non-overlapping
    `str.replace` semantics.
  - `json.loads` appears in the handler as an arbitrary parameter
    `parse : String → Option Json`, so handler-level theorems hold for
    every parser; the concrete reference parser `json_loads` below
    models the JSON grammar that `json.loads` accepts, restricted to the
    constructs the concrete inputs of this development use (objects,
    arrays, strings with the common escapes, integers, and the three
    literals; no floats, no unicode escapes).
  - The filesystem state relevant to one request is a single Bool:
    whether the temporary file exists.
-/

namespace LegalLens

/-- Model of a parsed JSON value, as produced by Python's json.loads.
Objects are association lists in source order (the concrete inputs of
this development have no duplicate keys, so this agrees with dict). -/
inductive Json where
  | null : Json
  | bool (b : Bool) : Json
  | num (n : Int) : Json
  | str (s : String) : Json
  | arr (elems : List Json) : Json
  | obj (members : List (String × Json)) : Json

/-- JSON whitespace, as accepted between tokens by json.loads. -/
def jsonWs (c : Char) : Bool :=
  c = ' ' || c = '\t' || c = '\n' || c = '\r'

/-- Drop leading JSON whitespace. -/
def skipWs (l : List Char) : List Char :=
  l.dropWhile jsonWs

/-- Decoding of a single-character JSON string escape. -/
def escChar (e : Char) : Option Char :=
  if e = '"' then some '"'
  else if e = '\\' then some '\\'
  else if e = '/' then some '/'
  else if e = 'n' then some '\n'
  else if e = 't' then some '\t'
  else if e = 'r' then some '\r'
  else if e = 'b' then some '\x08'
  else if e = 'f' then some '\x0c'
  else none

/-- Parse the body of a JSON string after the opening quote; returns the
decoded content and the input remaining after the closing quote. -/
def parseStringAux : List Char → Option (List Char × List Char)
  | [] => none
  | c :: rest =>
    if c = '"' then some ([], rest)
    else if c = '\\' then
      match rest with
      | [] => none
      | e :: rest2 =>
        match escChar e with
        | none => none
        | some d =>
          match parseStringAux rest2 with
          | none => none
          | some (s, r) => some (d :: s, r)
    else
      match parseStringAux rest with
      | none => none
      | some (s, r) => some (c :: s, r)

/-- Decimal digit test. -/
def isDigitCh (c : Char) : Bool :=
  '0' ≤ c && c ≤ '9'

/-- Numeric value of a digit list. -/
def natOfDigits (ds : List Char) : Nat :=
  ds.foldl (fun a c => a * 10 + (c.toNat - 48)) 0

/-- Prefix test on character lists. -/
def isPrefixList : List Char → List Char → Bool
  | [], _ => true
  | _ :: _, [] => false
  | p :: ps, c :: cs => p = c && isPrefixList ps cs

/-- Parse the members of a JSON object, positioned after the opening
brace or after a comma; `pv` parses one nested value. -/
def parseMembersAux (pv : List Char → Option (Json × List Char)) :
    Nat → List Char → Option (List (String × Json) × List Char) :=
  fun fuel l =>
    match fuel with
    | 0 => none
    | fuel + 1 =>
      match skipWs l with
      | [] => none
      | c :: rest =>
        if c = '"' then
          match parseStringAux rest with
          | none => none
          | some (k, r1) =>
            match skipWs r1 with
            | ':' :: r3 =>
              match pv r3 with
              | none => none
              | some (v, r4) =>
                match skipWs r4 with
                | ',' :: r6 =>
                  match parseMembersAux pv fuel r6 with
                  | none => none
                  | some (ms, r7) => some ((⟨k⟩, v) :: ms, r7)
                | '\x7d' :: r6 => some ([(⟨k⟩, v)], r6)
                | _ => none
            | _ => none
        else none

/-- Parse the elements of a JSON array, positioned after the opening
bracket or after a comma; `pv` parses one nested value. -/
def parseElemsAux (pv : List Char → Option (Json × List Char)) :
    Nat → List Char → Option (List Json × List Char) :=
  fun fuel l =>
    match fuel with
    | 0 => none
    | fuel + 1 =>
      match pv l with
      | none => none
      | some (v, r1) =>
        match skipWs r1 with
        | ',' :: r2 =>
          match parseElemsAux pv fuel r2 with
          | none => none
          | some (vs, r3) => some (v :: vs, r3)
        | ']' :: r2 => some ([v], r2)
        | _ => none

/-- Parse one JSON value; fuel bounds the recursion and any fuel of at
least the input length plus one is enough. -/
def parseValue : Nat → List Char → Option (Json × List Char)
  | 0, _ => none
  | fuel + 1, l =>
    match skipWs l with
    | [] => none
    | c :: rest =>
      if c = '"' then
        match parseStringAux rest with
        | none => none
        | some (s, r) => some (Json.str ⟨s⟩, r)
      else if c = '\x7b' then
        match skipWs rest with
        | '\x7d' :: r => some (Json.obj [], r)
        | _ =>
          match parseMembersAux (parseValue fuel) fuel rest with
          | none => none
          | some (ms, r) => some (Json.obj ms, r)
      else if c = '[' then
        match skipWs rest with
        | ']' :: r => some (Json.arr [], r)
        | _ =>
          match parseElemsAux (parseValue fuel) fuel rest with
          | none => none
          | some (vs, r) => some (Json.arr vs, r)
      else if isPrefixList ['t', 'r', 'u', 'e'] (c :: rest) then
        some (Json.bool true, rest.drop 3)
      else if isPrefixList ['f', 'a', 'l', 's', 'e'] (c :: rest) then
        some (Json.bool false, rest.drop 4)
      else if isPrefixList ['n', 'u', 'l', 'l'] (c :: rest) then
        some (Json.null, rest.drop 3)
      else if c = '-' || isDigitCh c then
        let l2 := if c = '-' then rest else c :: rest
        let ds := l2.takeWhile isDigitCh
        let r := l2.dropWhile isDigitCh
        if ds.isEmpty then none
        else if c = '-' then some (Json.num (-(natOfDigits ds : Int)), r)
        else some (Json.num (natOfDigits ds : Int), r)
      else none

/-- Reference model of Python's json.loads on the JSON subset used by
the concrete inputs of this development: some value when the whole
string is one JSON value (plus surrounding whitespace), none when
parsing fails. -/
def json_loads (s : String) : Option Json :=
  match parseValue (s.length + 1) s.toList with
  | none => none
  | some (v, r) => if (skipWs r).isEmpty then some v else none

/-- The backquote character, written by code point to keep the source
free of literal backquotes. -/
def bq : Char := '\x60'

/-- Python str.strip's notion of whitespace. -/
def pyIsSpace (c : Char) : Bool :=
  c = ' ' || c = '\t' || c = '\n' || c = '\r' || c = '\x0b' || c = '\x0c'

/-- Python str.strip: drop whitespace from both ends. -/
def pyStrip (l : List Char) : List Char :=
  ((l.dropWhile pyIsSpace).reverse.dropWhile pyIsSpace).reverse

/-- Python replace of every occurrence of backquote-backquote-backquote-j-s-o-n
by the empty string: one left-to-right scan removing non-overlapping
occurrences, exactly as str.replace does. -/
def stripJsonFence : List Char → List Char
  | a :: b :: c :: d :: e :: f :: g :: rest =>
    if a = bq ∧ b = bq ∧ c = bq ∧ d = 'j' ∧ e = 's' ∧ f = 'o' ∧ g = 'n' then
      stripJsonFence rest
    else
      a :: stripJsonFence (b :: c :: d :: e :: f :: g :: rest)
  | a :: rest => a :: stripJsonFence rest
  | [] => []

/-- Python replace of every occurrence of three consecutive backquotes
by the empty string: one left-to-right scan removing non-overlapping
occurrences, exactly as str.replace does. -/
def stripTicks : List Char → List Char
  | a :: b :: c :: rest =>
    if a = bq ∧ b = bq ∧ c = bq then stripTicks rest
    else a :: stripTicks (b :: c :: rest)
  | a :: rest => a :: stripTicks rest
  | [] => []

/-- Does the list start with three consecutive backquotes? -/
def startsTicks : List Char → Bool
  | a :: b :: c :: _ => a = bq && b = bq && c = bq
  | _ => false

/-- Does the list start with two consecutive backquotes? -/
def startsTwo : List Char → Bool
  | a :: b :: _ => a = bq && b = bq
  | _ => false

/-- Does the list start with a backquote? -/
def startsOne : List Char → Bool
  | a :: _ => a = bq
  | _ => false

/-- Does the list contain three consecutive backquotes anywhere? -/
def hasTicks : List Char → Bool
  | [] => false
  | a :: rest => startsTicks (a :: rest) || hasTicks rest

/-- The cleaning main.py's extract_clauses applies to the raw model
response: strip, then remove every fenced-json marker occurrence, then
remove every three-backquote occurrence. -/
def cleanResponse (s : String) : String :=
  ⟨stripTicks (stripJsonFence (pyStrip s.toList))⟩

/-- Model of the PDF library (fitz) behaviour on one concrete file:
opening may raise; on success each page's get_text call may raise. -/
structure PdfLib where
  openResult : Except Unit (List (Except Unit String))

/-- Page-order concatenation of the page texts; raises (propagates the
error) as soon as any get_text call raises, as the Python loop does. -/
def concatPages : List (Except Unit String) → Except Unit String
  | [] => Except.ok ""
  | p :: rest =>
    match p with
    | Except.error e => Except.error e
    | Except.ok t =>
      match concatPages rest with
      | Except.error e => Except.error e
      | Except.ok ts => Except.ok (t ++ ts)

/-- The body of read_pdf_file's try block (identical in src/main.py and
src/agents.py): open the document and concatenate page texts, with any
library exception propagated. -/
def readPdfFallible (lib : PdfLib) : Except Unit String :=
  match lib.openResult with
  | Except.error e => Except.error e
  | Except.ok pages => concatPages pages

/-- read_pdf_file from src/main.py lines 32-42 (src/agents.py lines
17-26 is the same function): any exception from the library is caught
and turned into the empty string. -/
def read_pdf_file (lib : PdfLib) : String :=
  match readPdfFallible lib with
  | Except.ok t => t
  | Except.error _ => ""

/-- The fixed sentinel get_summary in src/main.py returns when the
external call raises. -/
def summarySentinel : String := "Could not generate summary due to an API error."

/-- get_summary from src/main.py lines 44-61: the service response
verbatim, or the sentinel when the call raises. -/
def get_summary (resp : Except Unit String) : String :=
  match resp with
  | Except.ok t => t
  | Except.error _ => summarySentinel

/-- The fixed sentinel get_summary in src/agents.py returns when the
external call raises. -/
def agents_summarySentinel : String := "Failed to get summary due to erro in fetching gemini api"

/-- get_summary from src/agents.py lines 28-35. -/
def agents_get_summary (resp : Except Unit String) : String :=
  match resp with
  | Except.ok t => t
  | Except.error _ => agents_summarySentinel

/-- The exact string json.dumps produces for the hardcoded error dict of
src/main.py's extract_clauses (lines 95-99). -/
def clausesErrorFallback : String :=
  "\x7b\"liability\": [\"An error occurred while trying to extract clauses from the document.\"], \"termination\": [], \"confidentiality\": []\x7d"

/-- extract_clauses from src/main.py lines 63-99: on success the fenced
markers are stripped from the response; when the call raises, the
hardcoded fallback JSON string is returned. -/
def extract_clauses (resp : Except Unit String) : String :=
  match resp with
  | Except.ok t => cleanResponse t
  | Except.error _ => clausesErrorFallback

/-- The hardcoded fallback string of src/agents.py's extract_clauses
(line 66), with all three arrays empty. -/
def agents_clausesErrorFallback : String :=
  "\x7b \"liability\": [], \"termination\": [], \"confidentiality\": [] \x7d"

/-- extract_clauses from src/agents.py lines 39-66: the response is
returned verbatim (no fence-stripping); when the call raises, the
hardcoded fallback string is returned. -/
def agents_extract_clauses (resp : Except Unit String) : String :=
  match resp with
  | Except.ok t => t
  | Except.error _ => agents_clausesErrorFallback

/-- os.path.exists on the request's temporary path, with the filesystem
modelled by one Bool. -/
def os_path_exists (fs : Bool) : Bool := fs

/-- os.remove on the request's temporary path: raises FileNotFoundError
when the file is absent. -/
def os_remove (fs : Bool) : Except Unit Bool :=
  if fs then Except.ok false else Except.error ()

/-- The finally block of simplify_document (src/main.py lines 164-167):
remove the temporary file only if it exists. -/
def cleanup (fs : Bool) : Except Unit Bool :=
  if os_path_exists fs then os_remove fs else Except.ok fs

/-- The filesystem state after the finally block runs. -/
def finallyCleanup (fs : Bool) : Bool :=
  match cleanup fs with
  | Except.ok b => b
  | Except.error _ => fs

/-- A deterministic model of the external generative-text service: the
response (or raised exception) of each of the two calls as a function of
the document text embedded in the prompt. -/
structure Backend where
  summaryResp : String → Except Unit String
  clauseResp : String → Except Unit String

/-- One uploaded request: whether saving the upload to the temporary
path succeeds (open or copyfileobj may raise), and how the PDF library
behaves on the saved file. -/
structure UploadRequest where
  save : Except Unit Unit
  pdf : PdfLib

/-- The handler's HTTP outcome: 200 with the response payload, 400 with
a detail, or 500 with a detail. -/
inductive HandlerResult where
  | ok (summary : String) (clauses : Json) : HandlerResult
  | clientError (detail : String) : HandlerResult
  | serverError (detail : String) : HandlerResult

/-- What the handler observably did on one request. -/
structure HandlerOutcome where
  result : HandlerResult
  llmCalls : Nat
  tempFileExists : Bool

/-- Detail of the 400 raised on empty extracted text (src/main.py line 142). -/
def unreadableDetail : String := "Could not read text from the uploaded document."

/-- Detail of the 500 raised when the clause string fails to parse
(src/main.py line 153). -/
def malformedDetail : String := "The AI failed to structure the clauses correctly. Please try again."

/-- Detail of the generic 500 for unclassified exceptions (src/main.py line 163). -/
def internalErrorDetail : String := "An internal server error occurred during analysis."

/-- Body FastAPI sends when serializing the return value fails
response-model validation. -/
def responseValidationDetail : String := "Internal Server Error"

/-- Is this Json value a string? -/
def isStrJson : Json → Bool
  | Json.str _ => true
  | _ => false

/-- Is this Json value an array of strings? -/
def isStrArr : Json → Bool
  | Json.arr xs => xs.all isStrJson
  | _ => false

/-- The shape ResultStructure (src/main.py lines 119-121) declares for
the clauses field: a mapping from strings to lists of strings, with no
constraint on which keys appear. -/
def isClausesShape : Json → Bool
  | Json.obj kvs => kvs.all (fun kv => isStrArr kv.2)
  | _ => false

/-- FastAPI's validation of the handler's return value against
response_model=ResultStructure (src/main.py line 123): the 200 goes out
when the clauses value fits Dict from str to List of str, otherwise the
framework turns the response into a 500. -/
def validatedReturn (summary : String) (clauses : Json) : HandlerResult :=
  if isClausesShape clauses then HandlerResult.ok summary clauses
  else HandlerResult.serverError responseValidationDetail

/-- simplify_document from src/main.py lines 123-167, parameterised by
the external-service model, by the JSON parser (json.loads), by the
request, and by whether the temporary path already exists before the
request. Exceptions raised while saving hit the generic except branch;
the finally block runs on every path. -/
def simplify_document (b : Backend) (parse : String → Option Json)
    (req : UploadRequest) (fsInit : Bool) : HandlerOutcome :=
  match req.save with
  | Except.error _ =>
    { result := HandlerResult.serverError internalErrorDetail
      llmCalls := 0
      tempFileExists := finallyCleanup fsInit }
  | Except.ok _ =>
    let doc_text := read_pdf_file req.pdf
    if doc_text = "" then
      { result := HandlerResult.clientError unreadableDetail
        llmCalls := 0
        tempFileExists := finallyCleanup true }
    else
      let summary := get_summary (b.summaryResp doc_text)
      let clauses_json_string := extract_clauses (b.clauseResp doc_text)
      match parse clauses_json_string with
      | none =>
        { result := HandlerResult.serverError malformedDetail
          llmCalls := 2
          tempFileExists := finallyCleanup true }
      | some clauses_dict =>
        { result := validatedReturn summary clauses_dict
          llmCalls := 2
          tempFileExists := finallyCleanup true }

/-- Looks a key up in a parsed JSON object's member list. -/
def lookupJson (kvs : List (String × Json)) (k : String) : Option Json :=
  match kvs with
  | [] => none
  | kv :: rest => if kv.1 == k then some kv.2 else lookupJson rest k

/-- The clause shape the specification's invariant demands of a 200
response: exactly the three known keys, each mapped to an array of
strings. Stated from the specification's words, to be compared with
what the code guarantees. -/
def specClauseShape : Json → Bool
  | Json.obj kvs =>
    kvs.length == 3 &&
    (kvs.map Prod.fst).contains ("liability") &&
    (kvs.map Prod.fst).contains ("termination") &&
    (kvs.map Prod.fst).contains ("confidentiality") &&
    kvs.all (fun kv => isStrArr kv.2)
  | _ => false

/-- The error-fallback shape the specification demands of the Clause
Extractor on external failure: exactly the three keys, liability a
one-element array of strings, the other two empty arrays. Stated from
the specification's words. -/
def specErrorFallbackShape : Json → Bool
  | Json.obj kvs =>
    kvs.length == 3 &&
    (match lookupJson kvs ("liability") with
     | some (Json.arr [Json.str _]) => true
     | _ => false) &&
    (match lookupJson kvs ("termination") with
     | some (Json.arr []) => true
     | _ => false) &&
    (match lookupJson kvs ("confidentiality") with
     | some (Json.arr []) => true
     | _ => false)
  | _ => false

/-- A deterministic stub backend whose clause response is valid JSON
but carries only one of the three required keys. -/
def partialKeysBackend : Backend :=
  ⟨fun _ => Except.ok ("S"), fun _ => Except.ok ("\x7b\"liability\": []\x7d")⟩

/-- A deterministic stub backend whose clause response is a well-shaped
three-key JSON object. -/
def goodBackend : Backend :=
  ⟨fun _ => Except.ok ("S"),
   fun _ => Except.ok ("\x7b\"liability\": [], \"termination\": [], \"confidentiality\": []\x7d")⟩

/-- A deterministic stub backend whose clause response is not JSON. -/
def notJsonBackend : Backend :=
  ⟨fun _ => Except.ok ("S"), fun _ => Except.ok ("not json at all")⟩

/-- A request whose upload saves fine and whose document has one page of
text. -/
def simpleRequest : UploadRequest :=
  ⟨Except.ok (), ⟨Except.ok [Except.ok ("T")]⟩⟩

/-- A PDF the library cannot open. -/
def unreadablePdf : PdfLib := ⟨Except.error ()⟩

set_option maxRecDepth 40000

theorem startsOne_cons (a : Char) (t : List Char) :
    startsOne (a :: t) = decide (a = bq) := rfl

theorem startsTwo_cons (a : Char) (t : List Char) :
    startsTwo (a :: t) = (decide (a = bq) && startsOne t) := by
  match t with
  | [] => simp [startsTwo, startsOne]
  | x :: t2 => simp [startsTwo, startsOne]

theorem startsTicks_cons (a : Char) (t : List Char) :
    startsTicks (a :: t) = (decide (a = bq) && startsTwo t) := by
  match t with
  | [] => simp [startsTicks, startsTwo]
  | [x] => simp [startsTicks, startsTwo]
  | x :: y :: t3 => simp [startsTicks, startsTwo, Bool.and_assoc]

theorem startsOne_stripTicks (m : List Char) (h : startsOne m = false) :
    startsOne (stripTicks m) = false := by
  match m with
  | [] => simpa [stripTicks] using h
  | [a] => simpa [stripTicks, startsOne] using h
  | [a, b] => simpa [stripTicks, startsOne] using h
  | a :: b :: c :: rest =>
    simp [startsOne] at h
    simp only [stripTicks, if_neg (by tauto : ¬ (a = bq ∧ b = bq ∧ c = bq))]
    simp [startsOne_cons, h]

theorem startsTwo_stripTicks (m : List Char) (h : startsTwo m = false) :
    startsTwo (stripTicks m) = false := by
  match m with
  | [] => simp [stripTicks, startsTwo]
  | [a] => simp [stripTicks, startsTwo]
  | [a, b] => simpa [stripTicks, startsTwo] using h
  | a :: b :: c :: rest =>
    by_cases ha : a = bq
    · by_cases hb : b = bq
      · simp [startsTwo, ha, hb] at h
      · have hcond : ¬ (a = bq ∧ b = bq ∧ c = bq) := by tauto
        have hone : startsOne (b :: c :: rest) = false := by simp [startsOne, hb]
        have h2 := startsOne_stripTicks (b :: c :: rest) hone
        simp only [stripTicks, if_neg hcond]
        rw [startsTwo_cons, h2]
        simp
    · have hcond : ¬ (a = bq ∧ b = bq ∧ c = bq) := by tauto
      simp only [stripTicks, if_neg hcond]
      rw [startsTwo_cons]
      simp [ha]

theorem hasTicks_stripTicks_aux :
    ∀ (n : Nat) (l : List Char), l.length ≤ n → hasTicks (stripTicks l) = false := by
  intro n
  induction n with
  | zero =>
    intro l h
    have hl : l = [] := List.length_eq_zero.mp (Nat.le_zero.mp h)
    subst hl
    rfl
  | succ n ih =>
    intro l h
    match l with
    | [] => rfl
    | [a] => simp [stripTicks, hasTicks, startsTicks]
    | [a, b] => simp [stripTicks, hasTicks, startsTicks]
    | a :: b :: c :: rest =>
      simp only [List.length] at h
      by_cases hcond : a = bq ∧ b = bq ∧ c = bq
      · simp only [stripTicks, if_pos hcond]
        exact ih rest (by omega)
      · simp only [stripTicks, if_neg hcond]
        have hS : hasTicks (stripTicks (b :: c :: rest)) = false :=
          ih (b :: c :: rest) (by simp; omega)
        rw [hasTicks, startsTicks_cons, hS]
        by_cases ha : a = bq
        · have hbc : startsTwo (b :: c :: rest) = false := by
            by_cases hb : b = bq
            · by_cases hc : c = bq
              · exact absurd ⟨ha, hb, hc⟩ hcond
              · simp [startsTwo, hc]
            · simp [startsTwo, hb]
          rw [startsTwo_stripTicks (b :: c :: rest) hbc]
          simp
        · simp [ha]

theorem stripTicks_no_ticks (l : List Char) : hasTicks (stripTicks l) = false :=
  hasTicks_stripTicks_aux l.length l (Nat.le_refl _)

theorem finallyCleanup_eq_false (fs : Bool) : finallyCleanup fs = false := by
  cases fs <;> rfl

theorem result_fs_indep (b : Backend) (parse : String → Option Json) (req : UploadRequest)
    (fs1 fs2 : Bool) :
    (simplify_document b parse req fs1).result = (simplify_document b parse req fs2).result := by
  rcases req with ⟨save, pdf⟩
  cases save <;> rfl

theorem concatPages_error_mem (pages : List (Except Unit String))
    (h : Except.error () ∈ pages) : concatPages pages = Except.error () := by
  induction pages with
  | nil => cases h
  | cons p rest ih =>
    cases h with
    | head => rfl
    | tail _ hmem =>
      cases p with
      | error e => cases e; rfl
      | ok t => simp [concatPages, ih hmem]

/-- Claim C1, counterexample: with a clause response that is valid JSON
but carries only one of the three required keys, the handler answers
with HTTP 200 whose clauses field lacks the other two keys — so a 200
response does not always carry exactly the three known keys, and the
key-missing structure is returned rather than turned into a server
error. -/
theorem c1_counterexample_missing_keys_returned_ok :
    (simplify_document partialKeysBackend json_loads simpleRequest false).result =
      HandlerResult.ok ("S") (Json.obj [("liability", Json.arr [])]) ∧
    specClauseShape (Json.obj [("liability", Json.arr [])]) = false := ⟨rfl, rfl⟩

/-- Claim C1, amended: whenever the handler answers with HTTP 200, the
clauses field is a JSON object every value of which is an array of
strings (the declared response model enforces that much, so values are
never null), but the key set is whatever the parsed clause output
contained — keys may be missing or extra; only parse failures or
value-shape violations are turned into server errors. -/
theorem c1_ok_clauses_are_string_arrays (b : Backend) (parse : String → Option Json)
    (pdf : PdfLib) (fsInit : Bool) (s : String) (v : Json)
    (h : (simplify_document b parse ⟨Except.ok (), pdf⟩ fsInit).result = HandlerResult.ok s v) :
    isClausesShape v = true := by
  simp only [simplify_document] at h
  by_cases ht : read_pdf_file pdf = ""
  · rw [if_pos ht] at h
    simp at h
  · rw [if_neg ht] at h
    cases hp : parse (extract_clauses (b.clauseResp (read_pdf_file pdf))) with
    | none => simp [hp] at h
    | some w =>
      simp only [hp, validatedReturn] at h
      split at h
      · rename_i hw
        cases h
        exact hw
      · simp at h

/-- Claim C1, witness for the amended theorem at a concrete request that
reaches a 200. -/
theorem c1_ok_clauses_are_string_arrays_witness :
    isClausesShape (Json.obj [("liability", Json.arr []), ("termination", Json.arr []),
      ("confidentiality", Json.arr [])]) = true :=
  c1_ok_clauses_are_string_arrays goodBackend json_loads ⟨Except.ok [Except.ok ("T")]⟩ false
    ("S")
    (Json.obj [("liability", Json.arr []), ("termination", Json.arr []),
      ("confidentiality", Json.arr [])]) (by rfl)

/-- Claim C2, counterexample: the extract_clauses of src/agents.py, on
external-call failure, returns its hardcoded fallback whose liability
array is empty — not a single human-readable error-notice string as the
claim states for every extract_clauses. -/
theorem c2_counterexample_agents_fallback_no_notice :
    agents_extract_clauses (Except.error ()) = agents_clausesErrorFallback ∧
    json_loads (agents_extract_clauses (Except.error ())) =
      some (Json.obj [("liability", Json.arr []), ("termination", Json.arr []),
        ("confidentiality", Json.arr [])]) ∧
    specErrorFallbackShape (Json.obj [("liability", Json.arr []), ("termination", Json.arr []),
      ("confidentiality", Json.arr [])]) = false :=
  ⟨rfl, rfl, rfl⟩

/-- Claim C2, amended: on external-call failure both copies of
extract_clauses return (without raising) a hardcoded string that parses
as JSON with exactly the three required keys; the copy in src/main.py
puts a single human-readable error notice in liability and leaves the
other two empty, while the copy in src/agents.py leaves all three
arrays empty. -/
theorem c2_error_fallbacks :
    extract_clauses (Except.error ()) = clausesErrorFallback ∧
    json_loads (extract_clauses (Except.error ())) =
      some (Json.obj [("liability",
          Json.arr [Json.str ("An error occurred while trying to extract clauses from the document.")]),
        ("termination", Json.arr []), ("confidentiality", Json.arr [])]) ∧
    specErrorFallbackShape (Json.obj [("liability",
        Json.arr [Json.str ("An error occurred while trying to extract clauses from the document.")]),
      ("termination", Json.arr []), ("confidentiality", Json.arr [])]) = true ∧
    json_loads (agents_extract_clauses (Except.error ())) =
      some (Json.obj [("liability", Json.arr []), ("termination", Json.arr []),
        ("confidentiality", Json.arr [])]) :=
  ⟨rfl, rfl, rfl, rfl⟩

/-- Claim C3: when the upload saves fine but text extraction yields the
empty string, the handler answers with the 400 unreadable-content
detail, makes zero calls to the external service, and the temporary
file is gone. -/
theorem c3_empty_text_client_error_no_llm_calls (b : Backend) (parse : String → Option Json)
    (pdf : PdfLib) (fsInit : Bool) (htext : read_pdf_file pdf = "") :
    simplify_document b parse ⟨Except.ok (), pdf⟩ fsInit =
      ⟨HandlerResult.clientError unreadableDetail, 0, false⟩ := by
  simp [simplify_document, htext, finallyCleanup_eq_false]

/-- Claim C3, witness at a concrete unreadable document. -/
theorem c3_empty_text_client_error_no_llm_calls_witness :
    simplify_document goodBackend json_loads ⟨Except.ok (), unreadablePdf⟩ false =
      ⟨HandlerResult.clientError unreadableDetail, 0, false⟩ :=
  c3_empty_text_client_error_no_llm_calls goodBackend json_loads unreadablePdf false rfl

/-- Claim C4: with non-empty extracted text, when the fence-stripped
clause output fails to parse, the handler answers with the 500
malformed-AI-output detail, and by then both external calls have been
made. -/
theorem c4_unparseable_clauses_server_error_after_two_calls (b : Backend)
    (parse : String → Option Json) (pdf : PdfLib) (fsInit : Bool)
    (htext : read_pdf_file pdf ≠ "")
    (hparse : parse (extract_clauses (b.clauseResp (read_pdf_file pdf))) = none) :
    simplify_document b parse ⟨Except.ok (), pdf⟩ fsInit =
      ⟨HandlerResult.serverError malformedDetail, 2, false⟩ := by
  simp only [simplify_document]
  rw [if_neg htext]
  simp [hparse, finallyCleanup_eq_false]

/-- Claim C4, witness at a concrete non-JSON clause response. -/
theorem c4_unparseable_clauses_server_error_after_two_calls_witness :
    simplify_document notJsonBackend json_loads simpleRequest false =
      ⟨HandlerResult.serverError malformedDetail, 2, false⟩ :=
  c4_unparseable_clauses_server_error_after_two_calls notJsonBackend json_loads
    ⟨Except.ok [Except.ok ("T")]⟩ false (by decide) (by rfl)

/-- Claim C5: on every exit path of the handler the temporary file no
longer exists when the handler finishes, and the cleanup step never
raises and leaves the file absent even when it is already absent. -/
theorem c5_temp_file_always_deleted :
    (∀ (b : Backend) (parse : String → Option Json) (req : UploadRequest) (fsInit : Bool),
      (simplify_document b parse req fsInit).tempFileExists = false) ∧
    (∀ fs, cleanup fs = Except.ok false) := by
  constructor
  · intro b parse req fsInit
    rcases req with ⟨save, pdf⟩
    cases save with
    | error e => simp [simplify_document, finallyCleanup_eq_false]
    | ok u =>
      simp only [simplify_document]
      split
      · simp [finallyCleanup_eq_false]
      · split <;> simp [finallyCleanup_eq_false]
  · intro fs
    cases fs <;> rfl

/-- Claim C6: read_pdf_file never raises — it is a total function whose
value is the empty string whenever opening the document fails or any
page's text extraction fails (no partial text is returned), and the
extracted concatenation otherwise. -/
theorem c6_read_pdf_file_never_raises :
    (∀ (lib : PdfLib) (e : Unit), lib.openResult = Except.error e → read_pdf_file lib = "") ∧
    (∀ pages : List (Except Unit String), Except.error () ∈ pages →
      read_pdf_file ⟨Except.ok pages⟩ = "") ∧
    (∀ (lib : PdfLib) (t : String), readPdfFallible lib = Except.ok t →
      read_pdf_file lib = t) := by
  refine ⟨?_, ?_, ?_⟩
  · intro lib e h
    simp [read_pdf_file, readPdfFallible, h]
  · intro pages h
    simp [read_pdf_file, readPdfFallible, concatPages_error_mem pages h]
  · intro lib t h
    simp [read_pdf_file, h]

/-- Claim C6, witness: a document whose second page fails yields the
empty string, not the first page's text. -/
theorem c6_read_pdf_file_never_raises_witness :
    read_pdf_file ⟨Except.ok [Except.ok ("page one"), Except.error ()]⟩ = "" :=
  c6_read_pdf_file_never_raises.2.1 [Except.ok ("page one"), Except.error ()] (by simp)

/-- Claim C7: get_summary never raises — in both src/main.py and
src/agents.py it returns the service's response verbatim on success and
its fixed failure sentinel when the call raises. -/
theorem c7_get_summary_total :
    (∀ t, get_summary (Except.ok t) = t) ∧
    (get_summary (Except.error ()) = summarySentinel) ∧
    (∀ t, agents_get_summary (Except.ok t) = t) ∧
    (agents_get_summary (Except.error ()) = agents_summarySentinel) :=
  ⟨fun _ => rfl, rfl, fun _ => rfl, rfl⟩

/-- Claim C8: with a fixed file and a deterministic backend, running
the handler a second time (starting from the filesystem state the first
run left behind) yields the same result — the outcome does not depend
on whether the temporary path already existed. -/
theorem c8_same_file_same_backend_idempotent (b : Backend) (parse : String → Option Json)
    (req : UploadRequest) (fsInit : Bool) :
    (simplify_document b parse req
        ((simplify_document b parse req fsInit).tempFileExists)).result =
      (simplify_document b parse req fsInit).result :=
  result_fs_indep b parse req _ fsInit

/-- Claim C9: on every successful external call, main.py's
extract_clauses returns exactly the strip-then-replace cleaning of the
raw response, and the returned string never contains three consecutive
backquotes anywhere — the removal applies to occurrences at any
position, not only to surrounding fence markers. -/
theorem c9_fence_stripping_removes_all_ticks (raw : String) :
    extract_clauses (Except.ok raw) = cleanResponse raw ∧
    hasTicks (extract_clauses (Except.ok raw)).toList = false :=
  ⟨rfl, stripTicks_no_ticks (stripJsonFence (pyStrip raw.toList))⟩

/-- Claim C10: for a request with non-empty extracted text, the
malformed-AI-output 500 is produced exactly when the parser rejects the
cleaned clause string; any parsed value of any shape passes that step,
since the handler applies no schema validation before building the
response. -/
theorem c10_malformed_branch_iff_parse_fails (b : Backend) (parse : String → Option Json)
    (pdf : PdfLib) (fsInit : Bool) (htext : read_pdf_file pdf ≠ "") :
    ((simplify_document b parse ⟨Except.ok (), pdf⟩ fsInit).result =
        HandlerResult.serverError malformedDetail ↔
      parse (extract_clauses (b.clauseResp (read_pdf_file pdf))) = none) := by
  simp only [simplify_document]
  rw [if_neg htext]
  cases hp : parse (extract_clauses (b.clauseResp (read_pdf_file pdf))) with
  | none => simp [hp]
  | some v =>
    simp only [hp]
    constructor
    · intro h
      simp only [validatedReturn] at h
      split at h
      · simp at h
      · simp [malformedDetail, responseValidationDetail] at h
    · intro h
      simp at h

/-- Claim C10, witness at a concrete non-JSON clause response. -/
theorem c10_malformed_branch_iff_parse_fails_witness :
    (simplify_document notJsonBackend json_loads simpleRequest false).result =
      HandlerResult.serverError malformedDetail :=
  (c10_malformed_branch_iff_parse_fails notJsonBackend json_loads
    ⟨Except.ok [Except.ok ("T")]⟩ false (by decide)).mpr (by rfl)

end LegalLens
